import Mathlib

/-!
Verification of the moby daemon command layer (`daemon/command`) and the
container-record helpers (`daemon/*.go`) against their natural-language
specification.

The Go source is shallowly embedded: every fallible external call (file
system, network binds, the daemon core, the cluster, buildkit, plugin
lookups) is abstracted as a success/failure oracle carried in an
environment value, while the control flow of the orchestrator itself —
the order of the startup steps, the `defer` stack, the first-error-wins
serve loop, the `sync.Once` stop gate, the context plumbing of the
shutdown coordinator, and the host-list normalization — is transcribed
from the source.
-/

namespace Moby

/-! ## Shutdown signal (`daemonCLI.stop`, part_000 lines 515-524)

`daemonCLI` holds `stopOnce : sync.Once` and `apiShutdown : chan struct{}`.
`stop` runs `close(cli.apiShutdown)` under `stopOnce.Do`.  `sync.Once`
serializes concurrent callers, so any interleaving of calls is equivalent
to some sequential order; we model a sequence of `n` calls. -/

/-- State of the stop gate: whether the `sync.Once` has run and whether the
`apiShutdown` channel has been closed. -/
structure StopState where
  stopOnceDone : Bool
  apiShutdownClosed : Bool
deriving DecidableEq, Repr

/-- Initial state built by `newDaemonCLI`: fresh `sync.Once`, open channel. -/
def initStopState : StopState := ⟨false, false⟩

/-- `daemonCLI.stop`: `cli.stopOnce.Do(func() { close(cli.apiShutdown) })`.
Returns the new state and whether the closure actually ran (i.e. whether
`close` was executed) on this call. -/
def stop (s : StopState) : StopState × Bool :=
  if s.stopOnceDone then (s, false) else (⟨true, true⟩, true)

/-- `n` successive calls of `stop`; the second component counts how many of
them executed the `close`. -/
def stopN : Nat → StopState → StopState × Nat
  | 0, s => (s, 0)
  | n + 1, s =>
    let r := stop s
    let rest := stopN n r.1
    (rest.1, (if r.2 then 1 else 0) + rest.2)

/-- An observer attached to the gate sees "stop requested" iff the channel
is closed (a closed channel is observed by every receiver, exactly once
per transition, and there is exactly one transition). -/
def observeStopRequested (s : StopState) : Bool := s.apiShutdownClosed

theorem stopN_fired (n : Nat) : stopN n ⟨true, true⟩ = (⟨true, true⟩, 0) := by
  induction n with
  | zero => rfl
  | succ n ih => simp [stopN, stop, ih]

/-- Claim C2: calling `daemonCLI.stop` any number `n ≥ 1` of times is
equivalent to calling it once: the final state is "requested", the
`close` ran exactly once across all calls, an observer attached afterwards
observes "requested", and one more call is a no-op that does not run
`close` again. -/
theorem c2_stop_single_fire (n : Nat) (h : 1 ≤ n) :
    stopN n initStopState = (⟨true, true⟩, 1) ∧
    observeStopRequested (stopN n initStopState).1 = true ∧
    stop (stopN n initStopState).1 = (⟨true, true⟩, false) ∧
    stopN n initStopState = stopN 1 initStopState := by
  obtain ⟨m, rfl⟩ : ∃ m, n = m + 1 := ⟨n - 1, (Nat.succ_pred_eq_of_pos h).symm⟩
  simp [stopN, stop, initStopState, stopN_fired, observeStopRequested]

/-- Witness for C2 at `n = 3`. -/
theorem c2_stop_single_fire_witness :
    stopN 3 initStopState = (⟨true, true⟩, 1) ∧
    observeStopRequested (stopN 3 initStopState).1 = true ∧
    stop (stopN 3 initStopState).1 = (⟨true, true⟩, false) ∧
    stopN 3 initStopState = stopN 1 initStopState :=
  c2_stop_single_fire 3 (by decide)

/-! ## Daemon-core shutdown wrapper (`shutdownDaemon`, lines 526-548)

`shutdownDaemon` derives a context from its parent: `context.WithTimeout`
when `d.ShutdownTimeout() >= 0` (seconds), `context.WithCancel` otherwise.
A goroutine runs `d.Shutdown(ctx)` and then cancels; the function blocks
on `<-ctx.Done()` and logs "Force shutdown daemon" iff
`errors.Is(ctx.Err(), context.DeadlineExceeded)`, else a clean-shutdown
debug line. -/

/-- Outcome of a Go context's `Err()` once `Done()` has fired. -/
inductive CtxErr
  | deadlineExceeded
  | canceled
deriving DecidableEq, Repr

/-- A context, reduced to the only observable `shutdownDaemon` consults:
its effective deadline (in seconds from the call). -/
structure Ctx where
  deadline : Option Nat
deriving DecidableEq, Repr

/-- `context.WithTimeout`: the effective deadline is the sooner of the
parent's deadline and the new one. -/
def withTimeout (c : Ctx) (d : Nat) : Ctx :=
  ⟨some (match c.deadline with | none => d | some d0 => min d0 d)⟩

/-- `context.WithCancel`: no deadline is added. -/
def withCancel (c : Ctx) : Ctx := c

/-- The value of `ctx.Err()` observed after `<-ctx.Done()`, given the time
(seconds) at which the context's cancel function is invoked (`none` if it
never is; here the cancel runs when `d.Shutdown` returns).  `none` means
`Done()` never fires and the wait blocks forever. -/
def ctxDoneErr (c : Ctx) (cancelAt : Option Nat) : Option CtxErr :=
  match c.deadline, cancelAt with
  | none, none => none
  | none, some _ => some .canceled
  | some _, none => some .deadlineExceeded
  | some d, some t => if t ≤ d then some .canceled else some .deadlineExceeded

/-- Observable outcome of `shutdownDaemon`. -/
structure ShutdownOut where
  ctxDeadline : Option Nat
  ctxErr : Option CtxErr
  forcedLogged : Bool
  cleanLogged : Bool
deriving DecidableEq, Repr

/-- `shutdownDaemon` (lines 529-548): bound `d.Shutdown` by
`d.ShutdownTimeout()` seconds when that is non-negative, otherwise only by
explicit cancellation; log the forced outcome iff the context error is
`DeadlineExceeded`, the clean outcome iff it is `Canceled`.
`shutdownCompletesAt` is the time at which `d.Shutdown(ctx)` returns
(`none`: blocked forever), at which point the goroutine cancels. -/
def shutdownDaemon (parent : Ctx) (shutdownTimeoutSec : Int)
    (shutdownCompletesAt : Option Nat) : ShutdownOut :=
  let ctx :=
    if 0 ≤ shutdownTimeoutSec then withTimeout parent shutdownTimeoutSec.toNat
    else withCancel parent
  let e := ctxDoneErr ctx shutdownCompletesAt
  { ctxDeadline := ctx.deadline
    ctxErr := e
    forcedLogged := decide (e = some .deadlineExceeded)
    cleanLogged := decide (e = some .canceled) }

/-- Claim C7: for every daemon core, `shutdownDaemon` bounds `d.Shutdown`
by a deadline of `ShutdownTimeout()` seconds when the timeout is
non-negative and by no deadline (explicit cancellation only) when it is
negative; the forced outcome is reported exactly when the bounding
context's error is `DeadlineExceeded` and the clean outcome otherwise. -/
theorem c7_shutdown_timeout_bound (parent : Ctx) (t : Int) (c : Option Nat)
    (hp : parent.deadline = none) :
    (0 ≤ t → (shutdownDaemon parent t c).ctxDeadline = some t.toNat) ∧
    (t < 0 → (shutdownDaemon parent t c).ctxDeadline = none) ∧
    (0 ≤ t → c = none →
      (shutdownDaemon parent t c).ctxErr = some .deadlineExceeded) ∧
    (t < 0 → c = none → (shutdownDaemon parent t c).ctxErr = none) ∧
    ((shutdownDaemon parent t c).forcedLogged = true ↔
      (shutdownDaemon parent t c).ctxErr = some .deadlineExceeded) ∧
    ((shutdownDaemon parent t c).cleanLogged = true ↔
      (shutdownDaemon parent t c).ctxErr = some .canceled) := by
  obtain ⟨d⟩ := parent
  cases hp
  by_cases ht : 0 ≤ t
  · have ht2 : ¬ t < 0 := by omega
    cases c <;>
      simp [shutdownDaemon, withTimeout, withCancel, ctxDoneErr, ht, ht2]
  · have ht2 : t < 0 := by omega
    cases c <;>
      simp [shutdownDaemon, withTimeout, withCancel, ctxDoneErr, ht, ht2]

/-- Witness for C7: timeout 2 seconds, shutdown blocked forever. -/
theorem c7_shutdown_timeout_bound_witness :
    (0 ≤ (2 : Int) →
      (shutdownDaemon ⟨none⟩ 2 none).ctxDeadline = some (2 : Int).toNat) ∧
    ((2 : Int) < 0 → (shutdownDaemon ⟨none⟩ 2 none).ctxDeadline = none) ∧
    (0 ≤ (2 : Int) → (none : Option Nat) = none →
      (shutdownDaemon ⟨none⟩ 2 none).ctxErr = some .deadlineExceeded) ∧
    ((2 : Int) < 0 → (none : Option Nat) = none →
      (shutdownDaemon ⟨none⟩ 2 none).ctxErr = none) ∧
    ((shutdownDaemon ⟨none⟩ 2 none).forcedLogged = true ↔
      (shutdownDaemon ⟨none⟩ 2 none).ctxErr = some .deadlineExceeded) ∧
    ((shutdownDaemon ⟨none⟩ 2 none).cleanLogged = true ↔
      (shutdownDaemon ⟨none⟩ 2 none).ctxErr = some .canceled) :=
  c7_shutdown_timeout_bound ⟨none⟩ 2 none rfl

/-! ## Container entrypoint/args (`getEntrypointAndArgs`, lines 1246-1251)

The Go function indexes `configCmd[0]` when `configEntrypoint` is empty;
with both lists empty that access panics.  The embedding is total:
the panicking branch is `none`. -/

/-- `getEntrypointAndArgs` (daemon/container.go): with a non-empty
entrypoint, path is `entrypoint[0]` and args `entrypoint[1:] ++ cmd`;
otherwise path is `cmd[0]` and args `cmd[1:]`.  `none` marks the
out-of-bounds access `configCmd[0]` on empty `cmd`. -/
def getEntrypointAndArgs (configEntrypoint configCmd : List String) :
    Option (String × List String) :=
  match configEntrypoint with
  | [] =>
    match configCmd with
    | [] => none
    | c :: cs => some (c, cs)
  | e :: es => some (e, es ++ configCmd)

/-- Claim C10: `getEntrypointAndArgs` returns
`(Entrypoint[0], Entrypoint[1:] ++ Cmd)` for a non-empty entrypoint and
`(Cmd[0], Cmd[1:])` for an empty one, and its out-of-bounds error branch
is reachable exactly when both entrypoint and cmd are empty — so
`Daemon.newContainer`, which calls it unconditionally, is only safe under
the precondition that at least one of the two is non-empty. -/
theorem c10_entrypoint_args :
    (∀ e es cmd, getEntrypointAndArgs (e :: es) cmd = some (e, es ++ cmd)) ∧
    (∀ c cs, getEntrypointAndArgs [] (c :: cs) = some (c, cs)) ∧
    (∀ ep cmd, getEntrypointAndArgs ep cmd = none ↔ ep = [] ∧ cmd = []) := by
  refine ⟨fun e es cmd => rfl, fun c cs => rfl, fun ep cmd => ?_⟩
  cases ep <;> cases cmd <;> simp [getEntrypointAndArgs]

/-! ## TLS flags in `loadDaemonCliConfig` (lines 577-584 and 636-644)

Only the TLS-relevant fields and steps of `loadDaemonCliConfig` are
embedded; the remaining fields (hosts, labels, CDI directories, ...) do
not interact with them.  `verifySet` models `conf.IsValueSet(FlagTLSVerify)`:
it is true when the `--tlsverify` flag changed or the configuration file
set the key. -/

/-- The TLS-relevant slice of `config.Config` inside `loadDaemonCliConfig`. -/
structure TLSConf where
  tls : Option Bool
  tlsVerify : Option Bool
  verifySet : Bool
deriving DecidableEq, Repr

/-- The TLS-relevant steps of `loadDaemonCliConfig`, in source order:
the flag blocks at lines 577-584, the replacement of `conf` by the merged
file configuration (`MergeDaemonConfigurations`, abstracted as
`mergedFile`), the `IsValueSet(FlagTLSVerify)` forcing at lines 636-640,
and the `TLSVerify` defaulting at lines 642-644. -/
def loadDaemonCliConfigTLS (changedTLS changedVerify optTLS optVerify : Bool)
    (mergedFile : Option TLSConf) (c0 : TLSConf) : TLSConf :=
  let c1 := if changedTLS then { c0 with tls := some optTLS } else c0
  let c2 :=
    if changedVerify then
      { c1 with tlsVerify := some optVerify, tls := some true, verifySet := true }
    else c1
  let c3 := match mergedFile with | some m => m | none => c2
  let c4 := if c3.verifySet then { c3 with tls := some true } else c3
  if c4.tlsVerify = none ∧ c4.tls ≠ none then { c4 with tlsVerify := c4.tls }
  else c4

/-- Claim C9: every configuration accepted by `loadDaemonCliConfig`
satisfies the security-policy consistency invariant: a set `TLSVerify`
(true or false) forces `TLS = true`; a non-nil `TLS` guarantees a non-nil
`TLSVerify` (defaulting to the value of `TLS` when it was never set); and
client-certificate verification is never configured without TLS.
Hypotheses: the initial `opts.daemonConfig` is fresh (its `TLSVerify`
pointer is nil and the key unset) and the merged file configuration only
carries a non-nil `TLSVerify` when the key was actually set. -/
theorem c9_tls_invariant (changedTLS changedVerify optTLS optVerify : Bool)
    (mergedFile : Option TLSConf) (c0 : TLSConf)
    (h0 : c0.tlsVerify = none) (h0s : c0.verifySet = false)
    (hm : ∀ m, mergedFile = some m → m.tlsVerify ≠ none → m.verifySet = true) :
    ((loadDaemonCliConfigTLS changedTLS changedVerify optTLS optVerify
        mergedFile c0).verifySet = true →
      (loadDaemonCliConfigTLS changedTLS changedVerify optTLS optVerify
        mergedFile c0).tls = some true) ∧
    ((loadDaemonCliConfigTLS changedTLS changedVerify optTLS optVerify
        mergedFile c0).tls ≠ none →
      (loadDaemonCliConfigTLS changedTLS changedVerify optTLS optVerify
        mergedFile c0).tlsVerify ≠ none) ∧
    ((loadDaemonCliConfigTLS changedTLS changedVerify optTLS optVerify
        mergedFile c0).tlsVerify = some true →
      (loadDaemonCliConfigTLS changedTLS changedVerify optTLS optVerify
        mergedFile c0).tls = some true) ∧
    (mergedFile = none → changedVerify = false →
      (loadDaemonCliConfigTLS changedTLS changedVerify optTLS optVerify
          mergedFile c0).tls ≠ none →
      (loadDaemonCliConfigTLS changedTLS changedVerify optTLS optVerify
          mergedFile c0).tlsVerify =
        (loadDaemonCliConfigTLS changedTLS changedVerify optTLS optVerify
          mergedFile c0).tls) := by
  obtain ⟨t0, v0, s0⟩ := c0
  simp only at h0 h0s
  subst h0 h0s
  cases mergedFile with
  | none =>
    revert changedTLS changedVerify optTLS optVerify t0
    decide
  | some m =>
    obtain ⟨mt, mv, ms⟩ := m
    have hm2 : mv ≠ none → ms = true := hm ⟨mt, mv, ms⟩ rfl
    clear hm
    revert hm2
    revert changedTLS changedVerify optTLS optVerify t0 mt mv ms
    decide

/-- Witness for C9: `--tlsverify=false` on the command line, no config
file; the accepted configuration still has `TLS = some true`. -/
theorem c9_tls_invariant_witness :
    ((loadDaemonCliConfigTLS false true false false none
        ⟨none, none, false⟩).verifySet = true →
      (loadDaemonCliConfigTLS false true false false none
        ⟨none, none, false⟩).tls = some true) ∧
    ((loadDaemonCliConfigTLS false true false false none
        ⟨none, none, false⟩).tls ≠ none →
      (loadDaemonCliConfigTLS false true false false none
        ⟨none, none, false⟩).tlsVerify ≠ none) ∧
    ((loadDaemonCliConfigTLS false true false false none
        ⟨none, none, false⟩).tlsVerify = some true →
      (loadDaemonCliConfigTLS false true false false none
        ⟨none, none, false⟩).tls = some true) ∧
    ((none : Option TLSConf) = none → true = false →
      (loadDaemonCliConfigTLS false true false false none
          ⟨none, none, false⟩).tls ≠ none →
      (loadDaemonCliConfigTLS false true false false none
          ⟨none, none, false⟩).tlsVerify =
        (loadDaemonCliConfigTLS false true false false none
          ⟨none, none, false⟩).tls) :=
  c9_tls_invariant false true false false none ⟨none, none, false⟩ rfl rfl
    (fun m h => absurd h (by simp))

/-! ## Config hot-reload (`daemonCLI.reloadConfig`, lines 470-513)

`config.Reload` re-parses and re-validates the file (abstracted as
`loadedCfg : Option ReloadCfg`; `none` is a parse/validation error, which
the source logs and returns from).  The `reload` closure then:

* `validateAuthzPlugins(cfg.AuthorizationPlugins, cli.d.PluginStore)` —
  on error the source calls `log.G(ctx).WithError(err).Fatal(...)`, which
  in logrus terminates the process with exit code 1; the `return`
  statement after it is unreachable;
* `cli.d.Reload(cfg)` — on error logs and returns, applying nothing;
* only then caches `cfg.AuthorizationPlugins` in the authz middleware and
  toggles debug logging when the new config sets the `debug` key. -/

/-- The slice of the new configuration that `reloadConfig` consumes. -/
structure ReloadCfg where
  authzPlugins : List String
  debugSet : Bool
  debug : Bool
  core : Nat
deriving DecidableEq, Repr

/-- The state `reloadConfig` can read or write: the plugin store, the
daemon core's active configuration (opaque), the authz middleware's
cached plugin list, and the debug toggle. -/
structure CliState where
  pluginStore : List String
  activeCore : Nat
  cachedAuthzPlugins : List String
  debugEnabled : Bool
deriving DecidableEq, Repr

/-- How one invocation of `reloadConfig` ends. -/
inductive ReloadOutcome
  | cfgLoadError
  | fatalExit
  | reloadError
  | applied
deriving DecidableEq, Repr

/-- `validateAuthzPlugins` (lines 952-959): every requested plugin must be
resolvable in the plugin store. -/
def validateAuthzPlugins (requested : List String) (store : List String) : Bool :=
  requested.all (fun p => decide (p ∈ store))

/-- `daemonCLI.reloadConfig` (lines 470-513).  `daemonAccepts` abstracts
whether `cli.d.Reload(cfg)` succeeds; on success the daemon core holds the
new configuration. -/
def reloadConfig (loadedCfg : Option ReloadCfg) (daemonAccepts : Bool)
    (st : CliState) : ReloadOutcome × CliState :=
  match loadedCfg with
  | none => (.cfgLoadError, st)
  | some cfg =>
    if validateAuthzPlugins cfg.authzPlugins st.pluginStore = false then
      (.fatalExit, st)
    else if daemonAccepts = false then (.reloadError, st)
    else
      (.applied,
        { st with
          activeCore := cfg.core
          cachedAuthzPlugins := cfg.authzPlugins
          debugEnabled := if cfg.debugSet then cfg.debug else st.debugEnabled })

/-- Claim C4 (code bug): the spec requires every reload failure to be
logged and non-fatal, but when the new configuration names an
authorization plugin that is not in the plugin store, `reloadConfig`
reaches `log.G(ctx).WithError(err).Fatal(...)`, which terminates the
daemon process (the `return` after it is dead code).  Concretely: with an
empty plugin store and a new configuration requesting plugin
`"authz-plugin"`, the outcome is a process exit, not a logged no-op.
The other failure branches do keep the previous state: a config
parse/validation error and a daemon-core reload error both leave the
state unchanged, and the cached plugin list and debug toggle change only
on the applied branch. -/
theorem c4_reload_fatal_on_bad_authz_plugin :
    reloadConfig (some ⟨["authz-plugin"], false, false, 1⟩) true
        ⟨[], 0, [], false⟩ = (.fatalExit, ⟨[], 0, [], false⟩) ∧
    reloadConfig none true ⟨[], 0, [], false⟩ =
      (.cfgLoadError, ⟨[], 0, [], false⟩) ∧
    reloadConfig (some ⟨[], false, false, 1⟩) false ⟨[], 0, [], false⟩ =
      (.reloadError, ⟨[], 0, [], false⟩) ∧
    reloadConfig (some ⟨[], true, true, 1⟩) true ⟨[], 0, [], false⟩ =
      (.applied, ⟨[], 1, [], true⟩) := by
  decide

/-! ## Host normalization and listener resolution
(`normalizeHosts` lines 671-704, `checkTLSAuthOK` lines 825-848,
`loadListeners` lines 850-924)

Strings are handled on their character lists so that everything reduces
in the kernel.  `cutSep` is `strings.Cut` specialised to a non-empty
separator: it splits at the first occurrence. -/

/-- Drop `sep` from the front of `l` if it is literally there. -/
def dropSep : List Char → List Char → Option (List Char)
  | [], l => some l
  | _ :: _, [] => none
  | c :: cs, d :: ds => if c = d then dropSep cs ds else none

/-- Split a character list at the first occurrence of `sep`. -/
def cutChars (sep : List Char) : List Char → Option (List Char × List Char)
  | [] => none
  | c :: cs =>
    match dropSep sep (c :: cs) with
    | some rest => some ([], rest)
    | none =>
      match cutChars sep cs with
      | some (pre, post) => some (c :: pre, post)
      | none => none

/-- `strings.Cut(s, sep)` for non-empty `sep`: the parts before and after
the first occurrence of `sep`, or `none` when `sep` does not occur. -/
def cutSep (sep s : String) : Option (String × String) :=
  match cutChars sep.data s.data with
  | some (pre, post) => some (⟨pre⟩, ⟨post⟩)
  | none => none

/-- Modelled from the spec: the package-level constant `DefaultTLSValue`
(defined outside this excerpt).  The spec's listener security classes and
test scenarios take "TLS disabled" as the default posture. -/
def DefaultTLSValue : Bool := false

/-- Modelled from the spec: `dopts.ParseHost` (an external collaborator).
Per the spec's address-specification syntax, a well-formed specification
is `transport://address` and malformed strings are a startup error; on
already-normalized well-formed specifications the parser is the
identity. -/
def parseHostSpec (_useTLS : Bool) (h : String) : Option String :=
  if (cutSep "://" h).isSome then some h else none

/-- The slice of `config.Config` that `normalizeHosts`, `checkTLSAuthOK`
and `loadListeners` consult. -/
structure HostConf where
  hosts : List String
  tls : Option Bool
  tlsVerify : Option Bool
deriving DecidableEq, Repr

/-- The loop of `normalizeHosts` (lines 690-700): parse each host, skip
the ones already seen, append the rest; the first parse error fails the
whole normalization. -/
def normHostsLoop (parse : String → Option String) :
    List String → List String → Option (List String)
  | [], acc => some acc
  | h :: rest, acc =>
    match parse h with
    | none => none
    | some host =>
      if host ∈ acc then normHostsLoop parse rest acc
      else normHostsLoop parse rest (acc ++ [host])

/-- Lexicographic order on strings by their character lists (the order
`sort.Strings` sorts by; Go compares bytes, which agrees on ASCII hosts). -/
def strLeData (a b : String) : Prop := a.data ≤ b.data

instance : DecidableRel strLeData := fun a b =>
  inferInstanceAs (Decidable (a.data ≤ b.data))

instance : IsTotal String strLeData := ⟨fun a b => le_total a.data b.data⟩

instance : IsTrans String strLeData := ⟨fun _ _ _ => le_trans⟩

/-- `sort.Strings`: sort ascending (insertion sort is one such sort; on a
duplicate-free list the ascending result is unique). -/
def sortStrings (l : List String) : List String := l.insertionSort strLeData

/-- `normalizeHosts` (lines 673-704): default a missing host list to one
default entry, parse every host with the configured TLS default, drop
duplicates, sort, and store the result back into the config. -/
def normalizeHosts (parse : Bool → String → Option String)
    (defaultTLS : Bool) (cfg : HostConf) : Option HostConf :=
  let hosts0 := if cfg.hosts.isEmpty then [""] else cfg.hosts
  let useTLS := match cfg.tls with | none => defaultTLS | some t => t
  match normHostsLoop (parse useTLS) hosts0 [] with
  | none => none
  | some hs => some { cfg with hosts := sortStrings hs }

/-- `checkTLSAuthOK` (lines 828-848): the TLS posture is an accepted
explicit choice unless TLS is explicitly enabled with `TLSVerify`
unresolved (or the unset default applies). -/
def checkTLSAuthOK (cfg : HostConf) : Bool :=
  match cfg.tls with
  | none => DefaultTLSValue
  | some t =>
    if t = false then true
    else
      match cfg.tlsVerify with
      | none => false
      | some _ => true

/-- `tls.ClientAuthType`, reduced to what `loadListeners` tests. -/
inductive ClientAuthType
  | noClientCert
  | requireAndVerifyClientCert
deriving DecidableEq, Repr

/-- The slice of `tls.Config` that `loadListeners` consults. -/
structure TLSCfg where
  clientAuth : ClientAuthType
deriving DecidableEq, Repr

/-- `tlsConfig != nil && tlsConfig.ClientAuth == tls.RequireAndVerifyClientCert`
(line 869). -/
def authEnabled (tls : Option TLSCfg) : Bool :=
  match tls with
  | some t => decide (t.clientAuth = .requireAndVerifyClientCert)
  | none => false

/-- Oracles for the external calls `loadListeners` makes:
`net.SplitHostPort`, `net.ParseIP` / `net.ResolveIPAddr` (returning
whether the address is loopback), `allocateDaemonPort`, and
`listeners.Init` (bound listeners as abstract ids). -/
structure LLExt where
  splitHostPort : String → Option (String × String)
  parseIP : String → Option Bool
  resolveIPAddr : String → Option Bool
  allocOk : String → Bool
  initLs : String → String → Option (List Nat)

/-- Result of handling one host: the bound listeners plus the address
appended to the reported host list (or `none` on error), with the counts
of deterrent warnings emitted and seconds slept. -/
structure HostRes where
  res : Option (List Nat × String)
  warns : Nat
  sleepSec : Nat

/-- Lines 887-896: `net.ParseIP`, falling back to `net.ResolveIPAddr`;
the result is `some isLoopback`, or `none` when neither yields an IP. -/
def lookupLoopback (ext : LLExt) (ipAddr : String) : Option Bool :=
  match ext.parseIP ipAddr with
  | some lb => some lb
  | none => ext.resolveIPAddr ipAddr

/-- Lines 908-920: reserve the port for tcp, bind via `listeners.Init`,
and record the address for the reported host list. -/
def bindHost (ext : LLExt) (proto addr : String) (w s : Nat) : HostRes :=
  if proto = "tcp" ∧ ext.allocOk addr = false then ⟨none, w, s⟩
  else
    match ext.initLs proto addr with
    | none => ⟨none, w, s⟩
    | some ls => ⟨some (ls, addr), w, s⟩

/-- One iteration of the `loadListeners` loop (lines 861-921): parse the
`PROTO://ADDR` form, and for tcp without verified client certificates
emit three warnings and sleep one second; if additionally the TLS posture
is not an accepted explicit choice and the host is not literal
`localhost` and does not look up as a loopback address, emit four more
warnings and sleep fifteen more seconds; then reserve and bind. -/
def processHost (ext : LLExt) (cfg : HostConf) (tls : Option TLSCfg)
    (protoAddr : String) : HostRes :=
  match cutSep "://" protoAddr with
  | none => ⟨none, 0, 0⟩
  | some (proto, addr) =>
    if proto = "tcp" ∧ authEnabled tls = false then
      if checkTLSAuthOK cfg = false then
        match ext.splitHostPort addr with
        | none => ⟨none, 3, 1⟩
        | some (ipAddr, _) =>
          if ipAddr = "localhost" then bindHost ext proto addr 3 1
          else
            match lookupLoopback ext ipAddr with
            | some true => bindHost ext proto addr 3 1
            | _ => bindHost ext proto addr 7 16
      else bindHost ext proto addr 3 1
    else bindHost ext proto addr 0 0

/-- Result of `loadListeners`: the bound listeners and the reported host
list (`none` on the first error, binding nothing further), plus warning
and sleep totals. -/
structure LLOut where
  res : Option (List Nat × List String)
  warns : Nat
  sleepSec : Nat

/-- The fold of the `loadListeners` loop over the configured hosts. -/
def loadListenersGo (ext : LLExt) (cfg : HostConf) (tls : Option TLSCfg) :
    List String → List Nat × List String → Nat → Nat → LLOut
  | [], (lss, hosts), w, s => ⟨some (lss, hosts), w, s⟩
  | h :: rest, (lss, hosts), w, s =>
    let r := processHost ext cfg tls h
    match r.res with
    | none => ⟨none, w + r.warns, s + r.sleepSec⟩
    | some (ls, addr) =>
      loadListenersGo ext cfg tls rest (lss ++ ls, hosts ++ [addr])
        (w + r.warns) (s + r.sleepSec)

/-- `loadListeners` (lines 850-924). -/
def loadListeners (ext : LLExt) (cfg : HostConf) (tls : Option TLSCfg) : LLOut :=
  if cfg.hosts.isEmpty then ⟨none, 0, 0⟩
  else loadListenersGo ext cfg tls cfg.hosts ([], []) 0 0

/-! ### Properties of the normalization loop -/

/-- First-occurrence deduplication, written as the accumulator the
`normalizeHosts` loop builds. -/
def dedupAppend : List String → List String → List String
  | acc, [] => acc
  | acc, h :: t =>
    if h ∈ acc then dedupAppend acc t else dedupAppend (acc ++ [h]) t

theorem normHostsLoop_eq_dedupAppend (p : String → Option String) :
    ∀ (l acc : List String), (∀ h ∈ l, p h = some h) →
      normHostsLoop p l acc = some (dedupAppend acc l)
  | [], acc, _ => rfl
  | h :: t, acc, hall => by
    have hh := hall h (List.mem_cons_self h t)
    have ht : ∀ x ∈ t, p x = some x := fun x hx =>
      hall x (List.mem_cons_of_mem h hx)
    simp only [normHostsLoop, hh, dedupAppend]
    by_cases hmem : h ∈ acc
    · simp only [if_pos hmem]
      exact normHostsLoop_eq_dedupAppend p t acc ht
    · simp only [if_neg hmem]
      exact normHostsLoop_eq_dedupAppend p t (acc ++ [h]) ht

theorem mem_dedupAppend (x : String) :
    ∀ (l acc : List String), x ∈ dedupAppend acc l ↔ x ∈ acc ∨ x ∈ l
  | [], acc => by simp [dedupAppend]
  | h :: t, acc => by
    rw [dedupAppend]
    split
    · rename_i hmem
      rw [mem_dedupAppend x t acc]
      simp only [List.mem_cons]
      constructor
      · rintro (hc | hc)
        · exact Or.inl hc
        · exact Or.inr (Or.inr hc)
      · rintro (hc | rfl | hc)
        · exact Or.inl hc
        · exact Or.inl hmem
        · exact Or.inr hc
    · rw [mem_dedupAppend x t (acc ++ [h])]
      simp only [List.mem_append, List.mem_singleton, List.mem_cons]
      tauto

theorem nodup_dedupAppend :
    ∀ (l acc : List String), acc.Nodup → (dedupAppend acc l).Nodup
  | [], _, h => h
  | h :: t, acc, hn => by
    rw [dedupAppend]
    split
    · exact nodup_dedupAppend t acc hn
    · rename_i hmem
      refine nodup_dedupAppend t (acc ++ [h]) ?_
      simp [List.nodup_append, hn, hmem]

theorem dedupAppend_eq_append :
    ∀ (l acc : List String), l.Nodup → (∀ x ∈ l, x ∉ acc) →
      dedupAppend acc l = acc ++ l
  | [], acc, _, _ => by simp [dedupAppend]
  | h :: t, acc, hn, hd => by
    rw [dedupAppend, if_neg (hd h (List.mem_cons_self h t))]
    rw [dedupAppend_eq_append t (acc ++ [h]) (List.nodup_cons.mp hn).2 ?_]
    · simp
    · intro x hx
      simp only [List.mem_append, List.mem_singleton]
      rintro (hxa | rfl)
      · exact hd x (List.mem_cons_of_mem h hx) hxa
      · exact (List.nodup_cons.mp hn).1 hx

/-- The normalized form `normalizeHosts` produces: duplicates collapsed
(first occurrence kept), then sorted. -/
def normHosts (hosts : List String) : List String :=
  sortStrings (dedupAppend [] hosts)

theorem loadListenersGo_all_ok (ext : LLExt) (cfg : HostConf)
    (tls : Option TLSCfg) (f : String → List Nat) (g : String → String) :
    ∀ (l : List String) (lss : List Nat) (hosts : List String) (w s : Nat),
      (∀ h ∈ l, (processHost ext cfg tls h).res = some (f h, g h)) →
      (loadListenersGo ext cfg tls l (lss, hosts) w s).res =
        some (lss ++ (l.map f).flatten, hosts ++ l.map g)
  | [], lss, hosts, w, s, _ => by simp [loadListenersGo]
  | h :: t, lss, hosts, w, s, hall => by
    simp only [loadListenersGo, hall h (List.mem_cons_self h t)]
    rw [loadListenersGo_all_ok ext cfg tls f g t (lss ++ f h) (hosts ++ [g h])
      _ _ (fun x hx => hall x (List.mem_cons_of_mem h hx))]
    simp

/-- The concrete input refuting claim C3 as stated: one well-formed,
duplicate-free unix-socket host. -/
def c3CexConf : HostConf := ⟨["unix:///run/docker.sock"], none, none⟩

/-- External oracles under which binding the counterexample host
succeeds. -/
def c3CexExt : LLExt where
  splitHostPort := fun _ => none
  parseIP := fun _ => none
  resolveIPAddr := fun _ => none
  allocOk := fun _ => true
  initLs := fun _ _ => some [7]

/-- Claim C3, counterexample: for the non-empty, well-formed,
duplicate-free host list `["unix:///run/docker.sock"]`, `normalizeHosts`
leaves the list unchanged (it is already sorted and deduplicated), but
the host list produced by `loadListeners` is `["/run/docker.sock"]` — the
scheme is stripped (line 919 appends `addr`, not `protoAddr`) — which is
not the sorted input address list.  So "the normalized host list produced
by normalizeHosts followed by loadListeners equals the input addresses
sorted lexicographically" is false. -/
theorem c3_counterexample :
    normalizeHosts parseHostSpec DefaultTLSValue c3CexConf = some c3CexConf ∧
    (loadListeners c3CexExt c3CexConf none).res =
      some ([7], ["/run/docker.sock"]) ∧
    ["/run/docker.sock"] ≠ ["unix:///run/docker.sock"] := by
  decide

/-- Claim C3 as amended: for a non-empty list of well-formed address
specifications, `normalizeHosts` replaces the configured hosts with the
input specifications sorted lexicographically and with duplicates (same
scheme and address repeated) collapsed to a single entry — in particular,
for duplicate-free input it is exactly the sorted input; `loadListeners`
then reports, in that order, the address component of each specification
(scheme stripped), not the full specifications. -/
theorem c3_normalize_sort_dedup (cfg : HostConf) (dflt : Bool) (ext : LLExt)
    (tls : Option TLSCfg) (f : String → List Nat) (g : String → String)
    (hne : cfg.hosts ≠ [])
    (hwf : ∀ h ∈ cfg.hosts, (cutSep "://" h).isSome = true)
    (hbind : ∀ h ∈ normHosts cfg.hosts,
      (processHost ext { cfg with hosts := normHosts cfg.hosts } tls h).res =
        some (f h, g h)) :
    normalizeHosts parseHostSpec dflt cfg =
      some { cfg with hosts := normHosts cfg.hosts } ∧
    List.Sorted strLeData (normHosts cfg.hosts) ∧
    (normHosts cfg.hosts).Nodup ∧
    (∀ x, x ∈ normHosts cfg.hosts ↔ x ∈ cfg.hosts) ∧
    (cfg.hosts.Nodup → normHosts cfg.hosts = sortStrings cfg.hosts) ∧
    (loadListeners ext { cfg with hosts := normHosts cfg.hosts } tls).res =
      some (((normHosts cfg.hosts).map f).flatten,
        (normHosts cfg.hosts).map g) := by
  have hmem : ∀ x, x ∈ normHosts cfg.hosts ↔ x ∈ cfg.hosts := by
    intro x
    rw [normHosts, sortStrings,
      (List.perm_insertionSort strLeData (dedupAppend [] cfg.hosts)).mem_iff,
      mem_dedupAppend]
    simp
  refine ⟨?_, ?_, ?_, hmem, ?_, ?_⟩
  · rw [normalizeHosts]
    have hie : cfg.hosts.isEmpty = false := by
      cases hh : cfg.hosts.isEmpty
      · rfl
      · exact absurd (List.isEmpty_iff.mp hh) hne
    rw [hie]
    simp only [Bool.false_eq_true, if_false]
    rw [normHostsLoop_eq_dedupAppend _ _ _
      (fun h hh => by simp [parseHostSpec, hwf h hh])]
    rfl
  · exact List.sorted_insertionSort strLeData _
  · rw [normHosts, sortStrings,
      (List.perm_insertionSort strLeData (dedupAppend [] cfg.hosts)).nodup_iff]
    exact nodup_dedupAppend _ [] List.nodup_nil
  · intro hnd
    rw [normHosts, dedupAppend_eq_append _ [] hnd (by simp)]
    rfl
  · rw [loadListeners]
    have hne2 : (normHosts cfg.hosts).isEmpty = false := by
      obtain ⟨h0, t0, hh⟩ : ∃ h0 t0, cfg.hosts = h0 :: t0 := by
        cases hl : cfg.hosts with
        | nil => exact absurd hl hne
        | cons a b => exact ⟨a, b, rfl⟩
      have : h0 ∈ normHosts cfg.hosts := (hmem h0).mpr (by rw [hh]; simp)
      cases hnh : normHosts cfg.hosts with
      | nil => rw [hnh] at this; cases this
      | cons a b => rfl
    simp only [hne2, Bool.false_eq_true, if_false]
    rw [loadListenersGo_all_ok ext _ tls f g _ [] [] 0 0 hbind]
    simp

/-- Concrete configuration for the C3 witness: one tcp host with full TLS
verification. -/
def c3WitConf : HostConf := ⟨["tcp://a:1"], some true, some true⟩

/-- External oracles for the C3 witness: binding succeeds and yields
listener id 0. -/
def c3WitExt : LLExt where
  splitHostPort := fun _ => none
  parseIP := fun _ => none
  resolveIPAddr := fun _ => none
  allocOk := fun _ => true
  initLs := fun _ _ => some [0]

/-- Witness for the amended C3 at the host list `["tcp://a:1"]`. -/
theorem c3_normalize_sort_dedup_witness :
    normalizeHosts parseHostSpec DefaultTLSValue c3WitConf =
      some { c3WitConf with hosts := normHosts c3WitConf.hosts } ∧
    List.Sorted strLeData (normHosts c3WitConf.hosts) ∧
    (normHosts c3WitConf.hosts).Nodup ∧
    (∀ x, x ∈ normHosts c3WitConf.hosts ↔ x ∈ c3WitConf.hosts) ∧
    (c3WitConf.hosts.Nodup → normHosts c3WitConf.hosts =
      sortStrings c3WitConf.hosts) ∧
    (loadListeners c3WitExt { c3WitConf with hosts := normHosts c3WitConf.hosts }
        (some ⟨.requireAndVerifyClientCert⟩)).res =
      some (((normHosts c3WitConf.hosts).map (fun _ => [0])).flatten,
        (normHosts c3WitConf.hosts).map (fun _ => "a:1")) :=
  c3_normalize_sort_dedup c3WitConf DefaultTLSValue c3WitExt
    (some ⟨.requireAndVerifyClientCert⟩) (fun _ => [0]) (fun _ => "a:1")
    (by decide) (by decide) (by decide)

/-! ### Deterrent warnings and delays (claim C5) -/

theorem bindHost_effects (ext : LLExt) (p addr : String) (w s : Nat) :
    (bindHost ext p addr w s).warns = w ∧ (bindHost ext p addr w s).sleepSec = s := by
  rw [bindHost]
  split
  · exact ⟨rfl, rfl⟩
  · cases h2 : ext.initLs p addr <;> simp [h2]

theorem bindHost_ok (ext : LLExt) (addr : String) (w s : Nat)
    (halloc : ext.allocOk addr = true)
    (hinit : (ext.initLs "tcp" addr).isSome = true) :
    (bindHost ext "tcp" addr w s).res.isSome = true := by
  rw [bindHost, if_neg (by simp [halloc])]
  obtain ⟨ls, hls⟩ := Option.isSome_iff_exists.mp hinit
  simp [hls]

theorem processHost_auth_no_sleep (ext : LLExt) (cfg : HostConf)
    (tls : Option TLSCfg) (h : String) (ha : authEnabled tls = true) :
    (processHost ext cfg tls h).warns = 0 ∧
    (processHost ext cfg tls h).sleepSec = 0 := by
  rw [processHost]
  cases hc : cutSep "://" h with
  | none => exact ⟨rfl, rfl⟩
  | some pr =>
    obtain ⟨proto, addr⟩ := pr
    simp [ha, (bindHost_effects ext proto addr 0 0).1,
      (bindHost_effects ext proto addr 0 0).2]

theorem loadListenersGo_no_sleep (ext : LLExt) (cfg : HostConf)
    (tls : Option TLSCfg)
    (hall : ∀ h, (processHost ext cfg tls h).warns = 0 ∧
      (processHost ext cfg tls h).sleepSec = 0) :
    ∀ (l : List String) (lss : List Nat) (hosts : List String) (w s : Nat),
      (loadListenersGo ext cfg tls l (lss, hosts) w s).warns = w ∧
      (loadListenersGo ext cfg tls l (lss, hosts) w s).sleepSec = s
  | [], _, _, _, _ => ⟨rfl, rfl⟩
  | h :: t, lss, hosts, w, s => by
    simp only [loadListenersGo, (hall h).1, (hall h).2]
    cases hr : (processHost ext cfg tls h).res with
    | none => simp [hr]
    | some pr =>
      obtain ⟨ls, addr⟩ := pr
      simp only [hr]
      simpa using
        loadListenersGo_no_sleep ext cfg tls hall t (lss ++ ls) (hosts ++ [addr])
          (w + 0) (s + 0)

/-- Claim C5: for a tcp address without verified client certificates,
resolution still succeeds (given the external binds succeed) but emits at
least one deterrent warning and sleeps at least one second; if the TLS
posture is additionally not an accepted explicit opt-out
(`checkTLSAuthOK` false) and the address is neither literal `localhost`
nor resolves to a loopback address, at least 16 seconds are slept (the
extra 15-second deterrent); with TLS client verification required,
resolution emits no deterrent warning and sleeps zero seconds for any
address list. -/
theorem c5_insecure_tcp_deterrent :
    (∀ (ext : LLExt) (cfg : HostConf) (tls : Option TLSCfg)
        (protoAddr addr : String),
      cutSep "://" protoAddr = some ("tcp", addr) →
      authEnabled tls = false →
      (checkTLSAuthOK cfg = false → (ext.splitHostPort addr).isSome = true) →
      ext.allocOk addr = true →
      (ext.initLs "tcp" addr).isSome = true →
      (processHost ext cfg tls protoAddr).res.isSome = true ∧
        1 ≤ (processHost ext cfg tls protoAddr).warns ∧
        1 ≤ (processHost ext cfg tls protoAddr).sleepSec) ∧
    (∀ (ext : LLExt) (cfg : HostConf) (tls : Option TLSCfg)
        (protoAddr addr ipA prt : String),
      cutSep "://" protoAddr = some ("tcp", addr) →
      authEnabled tls = false →
      checkTLSAuthOK cfg = false →
      ext.splitHostPort addr = some (ipA, prt) →
      ipA ≠ "localhost" →
      lookupLoopback ext ipA ≠ some true →
      16 ≤ (processHost ext cfg tls protoAddr).sleepSec) ∧
    (∀ (ext : LLExt) (cfg : HostConf) (tls : Option TLSCfg),
      authEnabled tls = true →
      (loadListeners ext cfg tls).warns = 0 ∧
        (loadListeners ext cfg tls).sleepSec = 0) := by
  refine ⟨?_, ?_, ?_⟩
  · intro ext cfg tls pa addr hcut hauth hsplit halloc hinit
    by_cases hok : checkTLSAuthOK cfg = false
    · obtain ⟨⟨ipA, prt⟩, hsp⟩ := Option.isSome_iff_exists.mp (hsplit hok)
      by_cases hloc : ipA = "localhost"
      · simp [processHost, hcut, hauth, hok, hsp, hloc,
          bindHost_ok ext addr 3 1 halloc hinit,
          (bindHost_effects ext "tcp" addr 3 1).1,
          (bindHost_effects ext "tcp" addr 3 1).2]
      · cases hlb : lookupLoopback ext ipA with
        | none =>
          simp [processHost, hcut, hauth, hok, hsp, hloc, hlb,
            bindHost_ok ext addr 7 16 halloc hinit,
            (bindHost_effects ext "tcp" addr 7 16).1,
            (bindHost_effects ext "tcp" addr 7 16).2]
        | some b =>
          cases b
          · simp [processHost, hcut, hauth, hok, hsp, hloc, hlb,
              bindHost_ok ext addr 7 16 halloc hinit,
              (bindHost_effects ext "tcp" addr 7 16).1,
              (bindHost_effects ext "tcp" addr 7 16).2]
          · simp [processHost, hcut, hauth, hok, hsp, hloc, hlb,
              bindHost_ok ext addr 3 1 halloc hinit,
              (bindHost_effects ext "tcp" addr 3 1).1,
              (bindHost_effects ext "tcp" addr 3 1).2]
    · simp [processHost, hcut, hauth, hok,
        bindHost_ok ext addr 3 1 halloc hinit,
        (bindHost_effects ext "tcp" addr 3 1).1,
        (bindHost_effects ext "tcp" addr 3 1).2]
  · intro ext cfg tls pa addr ipA prt hcut hauth hok hsp hloc hlb
    cases hv : lookupLoopback ext ipA with
    | none =>
      simp [processHost, hcut, hauth, hok, hsp, hloc, hv,
        (bindHost_effects ext "tcp" addr 7 16).2]
    | some b =>
      cases b
      · simp [processHost, hcut, hauth, hok, hsp, hloc, hv,
          (bindHost_effects ext "tcp" addr 7 16).2]
      · exact absurd hv hlb
  · intro ext cfg tls ha
    have hall := fun h => processHost_auth_no_sleep ext cfg tls h ha
    rw [loadListeners]
    split
    · exact ⟨rfl, rfl⟩
    · exact loadListenersGo_no_sleep ext cfg tls hall cfg.hosts [] [] 0 0

/-- Configuration for the C5 witness: TLS explicitly enabled but
`TLSVerify` unresolved, so `checkTLSAuthOK` is false. -/
def c5Conf : HostConf := ⟨["tcp://0.0.0.0:2375"], some true, none⟩

/-- External oracles for the C5 witness: `0.0.0.0` parses as a
non-loopback IP and binding succeeds. -/
def c5Ext : LLExt where
  splitHostPort := fun _ => some ("0.0.0.0", "2375")
  parseIP := fun _ => some false
  resolveIPAddr := fun _ => none
  allocOk := fun _ => true
  initLs := fun _ _ => some [1]

/-- Witness for C5 at `tcp://0.0.0.0:2375` (insecure: succeeds with
warnings and a 16-second sleep) and at a verified-TLS listener pool
(zero warnings, zero sleep). -/
theorem c5_insecure_tcp_deterrent_witness :
    ((processHost c5Ext c5Conf none "tcp://0.0.0.0:2375").res.isSome = true ∧
      1 ≤ (processHost c5Ext c5Conf none "tcp://0.0.0.0:2375").warns ∧
      1 ≤ (processHost c5Ext c5Conf none "tcp://0.0.0.0:2375").sleepSec) ∧
    16 ≤ (processHost c5Ext c5Conf none "tcp://0.0.0.0:2375").sleepSec ∧
    ((loadListeners c5Ext c5Conf (some ⟨.requireAndVerifyClientCert⟩)).warns = 0 ∧
      (loadListeners c5Ext c5Conf (some ⟨.requireAndVerifyClientCert⟩)).sleepSec = 0) :=
  ⟨c5_insecure_tcp_deterrent.1 c5Ext c5Conf none "tcp://0.0.0.0:2375"
      "0.0.0.0:2375" (by decide) (by decide) (fun _ => by decide) (by decide)
      (by decide),
    c5_insecure_tcp_deterrent.2.1 c5Ext c5Conf none "tcp://0.0.0.0:2375"
      "0.0.0.0:2375" "0.0.0.0" "2375" (by decide) (by decide) (by decide)
      (by decide) (by decide) (by decide),
    c5_insecure_tcp_deterrent.2.2 c5Ext c5Conf
      (some ⟨.requireAndVerifyClientCert⟩) (by decide)⟩

/-! ## Shutdown coordinator contexts (`daemonCLI.start`, lines 176-222)

`start` builds `ctx, cancel := context.WithCancel(ctx)` for the main flow
and `apiShutdownCtx, apiShutdownCancel :=
context.WithCancel(context.WithoutCancel(ctx))` for the HTTP drain.  The
deferred finalizer at lines 205-222 selects on `cli.apiShutdown`:
if the stop signal fired it waits for the graceful `httpServer.Shutdown`
goroutine, arming `time.AfterFunc(5*time.Second, apiShutdownCancel)`;
otherwise it calls `httpServer.Close()` with no grace at all. -/

/-- Go context trees as far as cancellation propagation is concerned. -/
inductive GoCtx
  | background
  | withCancelCtx (parent : GoCtx) (cancelCalled : Bool)
  | withoutCancelCtx (parent : GoCtx)
deriving DecidableEq, Repr

/-- Whether a context is cancelled: its own cancel function was called or
an ancestor up to the nearest `WithoutCancel` boundary is cancelled. -/
def GoCtx.cancelled : GoCtx → Bool
  | .background => false
  | .withCancelCtx p c => c || p.cancelled
  | .withoutCancelCtx _ => false

/-- Line 190: `context.WithCancel(context.WithoutCancel(ctx))`. -/
def apiShutdownCtx (mainCtx : GoCtx) (apiCancelCalled : Bool) : GoCtx :=
  .withCancelCtx (.withoutCancelCtx mainCtx) apiCancelCalled

/-- How the deferred finalizer stops the HTTP server. -/
inductive ServerStopPath
  | immediateClose
  | gracefulShutdown
deriving DecidableEq, Repr

/-- The branch the `select` at lines 205-222 takes, by whether
`cli.apiShutdown` is closed when `start` returns. -/
def serverFinalizePath (stopFired : Bool) : ServerStopPath :=
  if stopFired then .gracefulShutdown else .immediateClose

/-- Grace granted by each stop path: `httpServer.Close()` grants none;
the graceful path grants the fixed 5-second extension of line 211. -/
def graceSecondsOf : ServerStopPath → Nat
  | .immediateClose => 0
  | .gracefulShutdown => 5

/-- `time.AfterFunc(5*time.Second, apiShutdownCancel)`: the drain context's
cancel fires `t` seconds after arming iff the 5-second extension has
elapsed. -/
def apiShutdownCancelCalledAt (t : Nat) : Bool := decide (5 ≤ t)

/-- Claim C8: when `start` returns with the stop signal never fired, the
HTTP server is closed immediately (zero grace) through a path distinct
from graceful shutdown; when the signal fired, the graceful path runs
with a fixed 5-second extension after which the drain context is forcibly
cancelled; and the drain context is decoupled from the main cancellable
context, so cancelling the main context never cancels it. -/
theorem c8_shutdown_ctx_decoupled :
    (serverFinalizePath false = .immediateClose ∧
      graceSecondsOf (serverFinalizePath false) = 0) ∧
    (serverFinalizePath true = .gracefulShutdown ∧
      graceSecondsOf (serverFinalizePath true) = 5 ∧
      serverFinalizePath true ≠ serverFinalizePath false) ∧
    (∀ t, t < 5 → apiShutdownCancelCalledAt t = false) ∧
    (∀ (m : GoCtx) (t : Nat), 5 ≤ t →
      (apiShutdownCtx m (apiShutdownCancelCalledAt t)).cancelled = true) ∧
    (∀ (m : GoCtx) (b : Bool), (apiShutdownCtx m b).cancelled = b) := by
  refine ⟨⟨rfl, rfl⟩, ⟨rfl, rfl, by decide⟩, ?_, ?_, ?_⟩
  · intro t ht
    simp [apiShutdownCancelCalledAt]
    omega
  · intro m t ht
    simp [apiShutdownCtx, GoCtx.cancelled, apiShutdownCancelCalledAt, ht]
  · intro m b
    simp [apiShutdownCtx, GoCtx.cancelled]

/-- Witness for C8: a cancelled main context does not cancel the drain
context; the timer has not fired at 3 seconds and has at 5. -/
theorem c8_shutdown_ctx_decoupled_witness :
    apiShutdownCancelCalledAt 3 = false ∧
    (apiShutdownCtx (GoCtx.withCancelCtx .background true)
      (apiShutdownCancelCalledAt 5)).cancelled = true ∧
    (apiShutdownCtx (GoCtx.withCancelCtx .background true) false).cancelled =
      false :=
  ⟨c8_shutdown_ctx_decoupled.2.2.1 3 (by decide),
    c8_shutdown_ctx_decoupled.2.2.2.1 (GoCtx.withCancelCtx .background true) 5
      (by decide),
    c8_shutdown_ctx_decoupled.2.2.2.2 (GoCtx.withCancelCtx .background true)
      false⟩

/-! ## The startup sequence of `daemonCLI.start` (lines 105-368)

Each fallible step of `start` is abstracted as a success bit in
`StartEnv`; the embedding records, in order, the subsystems constructed,
the cleanup actions executed on the way out (inline teardown first, then
the `defer` stack in LIFO order), whether the serve loop was entered, and
the returned error.  The serve loop itself is summarized by the per-
listener outcomes `serveErrors` (`none` = `http.ErrServerClosed`,
`some e` = a fatal listener error `e`); `errAPI` has capacity one and
`select`/`default` drops all but the first fatal error. -/

/-- Subsystems/resources `start` constructs. -/
inductive Subsys
  | pidFileRes
  | containerdSupervisor
  | httpSrv
  | daemonCore
  | clusterC
  | buildkitBackend
deriving DecidableEq, Repr

/-- Cleanup actions `start` can run on the way out. -/
inductive Teardown
  | removePidfile
  | containerdWait
  | cancelCtx
  | httpClose
  | httpGraceful
  | clusterCleanup
  | daemonShutdown
  | buildkitClose
deriving DecidableEq, Repr

/-- The fallible steps of `start`, in source order. -/
inductive Step
  | rootlessCheck
  | euidCheck
  | umaskStep
  | daemonRoot
  | execRoot
  | pidfileStep
  | listenersStep
  | containerdStep
  | preNotify
  | middlewares
  | newDaemon
  | validateAuthz
  | metricsStep
  | clusterNew
  | clusterStart
  | buildkitStep
deriving DecidableEq, Repr

/-- Errors `start` can return (startup-step errors wrap the step; a serve
error wraps the first fatal listener error). -/
inductive StartErr
  | rootless
  | euid
  | umaskE
  | daemonRootE
  | execRootE
  | pidfileE
  | listenersE
  | containerdE
  | preNotifyE
  | middlewaresE
  | newDaemonE
  | validateAuthzE
  | metricsE
  | clusterE
  | buildkitE
  | serveAPI (code : Nat)
deriving DecidableEq, Repr

/-- The error each failing step produces (both halves of
`createAndStartCluster` surface as the same wrapped cluster error). -/
def errOfStep : Step → StartErr
  | .rootlessCheck => .rootless
  | .euidCheck => .euid
  | .umaskStep => .umaskE
  | .daemonRoot => .daemonRootE
  | .execRoot => .execRootE
  | .pidfileStep => .pidfileE
  | .listenersStep => .listenersE
  | .containerdStep => .containerdE
  | .preNotify => .preNotifyE
  | .middlewares => .middlewaresE
  | .newDaemon => .newDaemonE
  | .validateAuthz => .validateAuthzE
  | .metricsStep => .metricsE
  | .clusterNew => .clusterE
  | .clusterStart => .clusterE
  | .buildkitStep => .buildkitE

/-- Success oracles, one per fallible external call of `start`, plus the
shape bits that decide which resources exist (`pidfileSet`:
`cli.Pidfile != ""`; `managedContainerd`: `initContainerd` spawned a
managed daemon and returned a non-nil wait function) and the serve-phase
observations. -/
structure StartEnv where
  rootlessOk : Bool
  euidOk : Bool
  umaskOk : Bool
  daemonRootOk : Bool
  execRootOk : Bool
  pidfileSet : Bool
  pidfileOk : Bool
  listenersOk : Bool
  containerdOk : Bool
  managedContainerd : Bool
  preNotifyOk : Bool
  middlewaresOk : Bool
  newDaemonOk : Bool
  validateAuthzOk : Bool
  metricsOk : Bool
  clusterNewOk : Bool
  clusterStartOk : Bool
  buildkitOk : Bool
  stopFired : Bool
  serveErrors : List (Option Nat)
deriving DecidableEq, Repr

/-- Observable outcome of `start`: returned error, whether the serve loop
ran, the subsystems constructed (most recent first), and the cleanup
actions executed, in execution order (inline teardown first, then the
LIFO defer stack). -/
structure StartRes where
  retErr : Option StartErr
  served : Bool
  constructed : List Subsys
  tornDown : List Teardown
deriving DecidableEq, Repr

/-- Defer registered at line 148 when a pid-file is configured. -/
def pidDefers (env : StartEnv) : List Teardown :=
  if env.pidfileSet then [.removePidfile] else []

/-- The pid-file resource, held once written. -/
def pidCons (env : StartEnv) : List Subsys :=
  if env.pidfileSet then [.pidFileRes] else []

/-- Defer registered at line 179 when `initContainerd` returned a wait
function (managed containerd only). -/
def waitDefers (env : StartEnv) : List Teardown :=
  if env.managedContainerd then [.containerdWait] else []

/-- The managed containerd supervisor, when spawned. -/
def containerdCons (env : StartEnv) : List Subsys :=
  if env.managedContainerd then [.containerdSupervisor] else []

/-- The deferred HTTP finalizer of lines 205-222: graceful wait when the
stop signal fired, immediate `Close` otherwise. -/
def httpFinalize (env : StartEnv) : Teardown :=
  if env.stopFired then .httpGraceful else .httpClose

/-- Subsystems alive at the point `preNotifyReady` runs. -/
def preCons (env : StartEnv) : List Subsys :=
  .httpSrv :: containerdCons env ++ pidCons env

/-- The defer stack from `preNotifyReady` onward, in LIFO execution
order: http finalizer, `cancel`, containerd wait, pid-file removal. -/
def postDefers (env : StartEnv) : List Teardown :=
  httpFinalize env :: .cancelCtx :: (waitDefers env ++ pidDefers env)

/-- Subsystems alive after `NewDaemon` succeeded. -/
def daemonCons (env : StartEnv) : List Subsys := .daemonCore :: preCons env

/-- Subsystems alive after `cluster.New` succeeded. -/
def clusterCons (env : StartEnv) : List Subsys := .clusterC :: daemonCons env

/-- The capacity-one `errAPI` channel: the first fatal serve error wins,
`http.ErrServerClosed` (`none`) is never sent. -/
def firstFatalServe (l : List (Option Nat)) : Option Nat :=
  (l.filterMap id).head?

/-- `daemonCLI.start` (lines 105-368). -/
def start (env : StartEnv) : StartRes :=
  if env.rootlessOk = false then ⟨some .rootless, false, [], []⟩
  else if env.euidOk = false then ⟨some .euid, false, [], []⟩
  else if env.umaskOk = false then ⟨some .umaskE, false, [], []⟩
  else if env.daemonRootOk = false then ⟨some .daemonRootE, false, [], []⟩
  else if env.execRootOk = false then ⟨some .execRootE, false, [], []⟩
  else if env.pidfileSet = true ∧ env.pidfileOk = false then
    ⟨some .pidfileE, false, [], []⟩
  else if env.listenersOk = false then
    ⟨some .listenersE, false, pidCons env, pidDefers env⟩
  else if env.containerdOk = false then
    ⟨some .containerdE, false, pidCons env, .cancelCtx :: pidDefers env⟩
  else if env.preNotifyOk = false then
    ⟨some .preNotifyE, false, preCons env, postDefers env⟩
  else if env.middlewaresOk = false then
    ⟨some .middlewaresE, false, preCons env, postDefers env⟩
  else if env.newDaemonOk = false then
    ⟨some .newDaemonE, false, preCons env, postDefers env⟩
  else if env.validateAuthzOk = false then
    ⟨some .validateAuthzE, false, daemonCons env, postDefers env⟩
  else if env.metricsOk = false then
    ⟨some .metricsE, false, daemonCons env, postDefers env⟩
  else if env.clusterNewOk = false then
    ⟨some .clusterE, false, daemonCons env, postDefers env⟩
  else if env.clusterStartOk = false then
    ⟨some .clusterE, false, clusterCons env, postDefers env⟩
  else if env.buildkitOk = false then
    ⟨some .buildkitE, false, clusterCons env, postDefers env⟩
  else
    ⟨(firstFatalServe env.serveErrors).map .serveAPI, true,
      .buildkitBackend :: clusterCons env,
      [.clusterCleanup, .daemonShutdown, .buildkitClose, .cancelCtx] ++
        postDefers env⟩

/-- The first failing startup step of an environment, in source order
(`none`: startup completes and the serve loop runs). -/
def firstFailingStep (env : StartEnv) : Option Step :=
  if env.rootlessOk = false then some .rootlessCheck
  else if env.euidOk = false then some .euidCheck
  else if env.umaskOk = false then some .umaskStep
  else if env.daemonRootOk = false then some .daemonRoot
  else if env.execRootOk = false then some .execRoot
  else if env.pidfileSet = true ∧ env.pidfileOk = false then some .pidfileStep
  else if env.listenersOk = false then some .listenersStep
  else if env.containerdOk = false then some .containerdStep
  else if env.preNotifyOk = false then some .preNotify
  else if env.middlewaresOk = false then some .middlewares
  else if env.newDaemonOk = false then some .newDaemon
  else if env.validateAuthzOk = false then some .validateAuthz
  else if env.metricsOk = false then some .metricsStep
  else if env.clusterNewOk = false then some .clusterNew
  else if env.clusterStartOk = false then some .clusterStart
  else if env.buildkitOk = false then some .buildkitStep
  else none

/-- What the amended claim C1 predicts `start` has constructed when it
fails at step `k`. -/
def constructedUpTo (env : StartEnv) : Step → List Subsys
  | .rootlessCheck | .euidCheck | .umaskStep | .daemonRoot | .execRoot
  | .pidfileStep => []
  | .listenersStep | .containerdStep => pidCons env
  | .preNotify | .middlewares | .newDaemon => preCons env
  | .validateAuthz | .metricsStep | .clusterNew => daemonCons env
  | .clusterStart | .buildkitStep => clusterCons env

/-- What the amended claim C1 predicts `start` tears down when it fails
at step `k`: exactly the deferred cleanups registered before `k` (plus
the inline `cancel()` on the containerd failure path). -/
def failTeardown (env : StartEnv) : Step → List Teardown
  | .rootlessCheck | .euidCheck | .umaskStep | .daemonRoot | .execRoot
  | .pidfileStep => []
  | .listenersStep => pidDefers env
  | .containerdStep => .cancelCtx :: pidDefers env
  | .preNotify | .middlewares | .newDaemon | .validateAuthz | .metricsStep
  | .clusterNew | .clusterStart | .buildkitStep => postDefers env

/-- The environment refuting claim C1 as stated: every step succeeds
except buildkit initialization; a pid-file is configured and containerd
is managed. -/
def c1CexEnv : StartEnv where
  rootlessOk := true
  euidOk := true
  umaskOk := true
  daemonRootOk := true
  execRootOk := true
  pidfileSet := true
  pidfileOk := true
  listenersOk := true
  containerdOk := true
  managedContainerd := true
  preNotifyOk := true
  middlewaresOk := true
  newDaemonOk := true
  validateAuthzOk := true
  metricsOk := true
  clusterNewOk := true
  clusterStartOk := true
  buildkitOk := false
  stopFired := false
  serveErrors := []

/-- Claim C1, counterexample: when the buildkit step fails, the cluster
and the daemon core — subsystems started before that step — are not torn
down at all on the failure path: `c.Cleanup()` and `shutdownDaemon` run
only after the serve loop (lines 346-350), which a startup failure never
reaches, and no deferred cleanup covers them.  So "exactly the subsystems
started before step k are torn down" is false at this input. -/
theorem c1_counterexample :
    firstFailingStep c1CexEnv = some .buildkitStep ∧
    (start c1CexEnv).retErr = some .buildkitE ∧
    (start c1CexEnv).served = false ∧
    Subsys.clusterC ∈ (start c1CexEnv).constructed ∧
    Subsys.daemonCore ∈ (start c1CexEnv).constructed ∧
    Teardown.clusterCleanup ∉ (start c1CexEnv).tornDown ∧
    Teardown.daemonShutdown ∉ (start c1CexEnv).tornDown := by
  decide

/-- Claim C1 as amended: if startup step `k` fails, `start` returns that
step's error without entering the serve loop; no subsystem of any later
step is constructed (the cluster counts as constructed when `cluster.New`
succeeded but `c.Start` failed, i.e. within step `k` itself); and the
cleanup executed is exactly the deferred cleanups registered before `k` —
pid-file removal, the containerd supervisor's bounded wait, the context
cancel, and the HTTP finalizer (which on a startup failure without a stop
signal closes the server, a path distinct from graceful shutdown).  These
defers are shared with the normal-shutdown return path, but the daemon
core, cluster and build backend are torn down only after the serve loop,
never on the startup-failure path. -/
theorem c1_step_failure_unwind (env : StartEnv) (k : Step)
    (h : firstFailingStep env = some k) :
    (start env).served = false ∧
    (start env).retErr = some (errOfStep k) ∧
    (start env).constructed = constructedUpTo env k ∧
    (start env).tornDown = failTeardown env k := by
  unfold firstFailingStep at h
  by_cases h1 : env.rootlessOk = false
  case pos =>
    rw [if_pos h1] at h
    injection h with h
    subst h
    simp only [start, if_pos h1]
    simp [constructedUpTo, failTeardown, errOfStep]
  case neg =>
    rw [if_neg h1] at h
    by_cases h2 : env.euidOk = false
    case pos =>
      rw [if_pos h2] at h
      injection h with h
      subst h
      simp only [start, if_neg h1, if_pos h2]
      simp [constructedUpTo, failTeardown, errOfStep]
    case neg =>
      rw [if_neg h2] at h
      by_cases h3 : env.umaskOk = false
      case pos =>
        rw [if_pos h3] at h
        injection h with h
        subst h
        simp only [start, if_neg h1, if_neg h2, if_pos h3]
        simp [constructedUpTo, failTeardown, errOfStep]
      case neg =>
        rw [if_neg h3] at h
        by_cases h4 : env.daemonRootOk = false
        case pos =>
          rw [if_pos h4] at h
          injection h with h
          subst h
          simp only [start, if_neg h1, if_neg h2, if_neg h3, if_pos h4]
          simp [constructedUpTo, failTeardown, errOfStep]
        case neg =>
          rw [if_neg h4] at h
          by_cases h5 : env.execRootOk = false
          case pos =>
            rw [if_pos h5] at h
            injection h with h
            subst h
            simp only [start, if_neg h1, if_neg h2, if_neg h3, if_neg h4, if_pos h5]
            simp [constructedUpTo, failTeardown, errOfStep]
          case neg =>
            rw [if_neg h5] at h
            by_cases h6 : env.pidfileSet = true ∧ env.pidfileOk = false
            case pos =>
              rw [if_pos h6] at h
              injection h with h
              subst h
              simp only [start, if_neg h1, if_neg h2, if_neg h3, if_neg h4, if_neg h5, if_pos h6]
              simp [constructedUpTo, failTeardown, errOfStep]
            case neg =>
              rw [if_neg h6] at h
              by_cases h7 : env.listenersOk = false
              case pos =>
                rw [if_pos h7] at h
                injection h with h
                subst h
                simp only [start, if_neg h1, if_neg h2, if_neg h3, if_neg h4, if_neg h5, if_neg h6, if_pos h7]
                simp [constructedUpTo, failTeardown, errOfStep]
              case neg =>
                rw [if_neg h7] at h
                by_cases h8 : env.containerdOk = false
                case pos =>
                  rw [if_pos h8] at h
                  injection h with h
                  subst h
                  simp only [start, if_neg h1, if_neg h2, if_neg h3, if_neg h4, if_neg h5, if_neg h6, if_neg h7, if_pos h8]
                  simp [constructedUpTo, failTeardown, errOfStep]
                case neg =>
                  rw [if_neg h8] at h
                  by_cases h9 : env.preNotifyOk = false
                  case pos =>
                    rw [if_pos h9] at h
                    injection h with h
                    subst h
                    simp only [start, if_neg h1, if_neg h2, if_neg h3, if_neg h4, if_neg h5, if_neg h6, if_neg h7, if_neg h8, if_pos h9]
                    simp [constructedUpTo, failTeardown, errOfStep]
                  case neg =>
                    rw [if_neg h9] at h
                    by_cases h10 : env.middlewaresOk = false
                    case pos =>
                      rw [if_pos h10] at h
                      injection h with h
                      subst h
                      simp only [start, if_neg h1, if_neg h2, if_neg h3, if_neg h4, if_neg h5, if_neg h6, if_neg h7, if_neg h8, if_neg h9, if_pos h10]
                      simp [constructedUpTo, failTeardown, errOfStep]
                    case neg =>
                      rw [if_neg h10] at h
                      by_cases h11 : env.newDaemonOk = false
                      case pos =>
                        rw [if_pos h11] at h
                        injection h with h
                        subst h
                        simp only [start, if_neg h1, if_neg h2, if_neg h3, if_neg h4, if_neg h5, if_neg h6, if_neg h7, if_neg h8, if_neg h9, if_neg h10, if_pos h11]
                        simp [constructedUpTo, failTeardown, errOfStep]
                      case neg =>
                        rw [if_neg h11] at h
                        by_cases h12 : env.validateAuthzOk = false
                        case pos =>
                          rw [if_pos h12] at h
                          injection h with h
                          subst h
                          simp only [start, if_neg h1, if_neg h2, if_neg h3, if_neg h4, if_neg h5, if_neg h6, if_neg h7, if_neg h8, if_neg h9, if_neg h10, if_neg h11, if_pos h12]
                          simp [constructedUpTo, failTeardown, errOfStep]
                        case neg =>
                          rw [if_neg h12] at h
                          by_cases h13 : env.metricsOk = false
                          case pos =>
                            rw [if_pos h13] at h
                            injection h with h
                            subst h
                            simp only [start, if_neg h1, if_neg h2, if_neg h3, if_neg h4, if_neg h5, if_neg h6, if_neg h7, if_neg h8, if_neg h9, if_neg h10, if_neg h11, if_neg h12, if_pos h13]
                            simp [constructedUpTo, failTeardown, errOfStep]
                          case neg =>
                            rw [if_neg h13] at h
                            by_cases h14 : env.clusterNewOk = false
                            case pos =>
                              rw [if_pos h14] at h
                              injection h with h
                              subst h
                              simp only [start, if_neg h1, if_neg h2, if_neg h3, if_neg h4, if_neg h5, if_neg h6, if_neg h7, if_neg h8, if_neg h9, if_neg h10, if_neg h11, if_neg h12, if_neg h13, if_pos h14]
                              simp [constructedUpTo, failTeardown, errOfStep]
                            case neg =>
                              rw [if_neg h14] at h
                              by_cases h15 : env.clusterStartOk = false
                              case pos =>
                                rw [if_pos h15] at h
                                injection h with h
                                subst h
                                simp only [start, if_neg h1, if_neg h2, if_neg h3, if_neg h4, if_neg h5, if_neg h6, if_neg h7, if_neg h8, if_neg h9, if_neg h10, if_neg h11, if_neg h12, if_neg h13, if_neg h14, if_pos h15]
                                simp [constructedUpTo, failTeardown, errOfStep]
                              case neg =>
                                rw [if_neg h15] at h
                                by_cases h16 : env.buildkitOk = false
                                case pos =>
                                  rw [if_pos h16] at h
                                  injection h with h
                                  subst h
                                  simp only [start, if_neg h1, if_neg h2, if_neg h3, if_neg h4, if_neg h5, if_neg h6, if_neg h7, if_neg h8, if_neg h9, if_neg h10, if_neg h11, if_neg h12, if_neg h13, if_neg h14, if_neg h15, if_pos h16]
                                  simp [constructedUpTo, failTeardown, errOfStep]
                                case neg =>
                                  rw [if_neg h16] at h
                                  exact absurd h (by simp)

/-- Environment for the C1 witness: the metrics step fails. -/
def c1WitEnv : StartEnv where
  rootlessOk := true
  euidOk := true
  umaskOk := true
  daemonRootOk := true
  execRootOk := true
  pidfileSet := true
  pidfileOk := true
  listenersOk := true
  containerdOk := true
  managedContainerd := false
  preNotifyOk := true
  middlewaresOk := true
  newDaemonOk := true
  validateAuthzOk := true
  metricsOk := false
  clusterNewOk := true
  clusterStartOk := true
  buildkitOk := true
  stopFired := false
  serveErrors := []

/-- Witness for the amended C1: failure at the metrics step. -/
theorem c1_step_failure_unwind_witness :
    (start c1WitEnv).served = false ∧
    (start c1WitEnv).retErr = some (errOfStep .metricsStep) ∧
    (start c1WitEnv).constructed = constructedUpTo c1WitEnv .metricsStep ∧
    (start c1WitEnv).tornDown = failTeardown c1WitEnv .metricsStep :=
  c1_step_failure_unwind c1WitEnv .metricsStep (by decide)

/-- Claim C6: `start` returns `nil` iff no startup step failed and no
listener reported a fatal (non-`ErrServerClosed`) serve error; and when
startup succeeds, the serve loop runs and the returned error is exactly
the first fatal listener error, wrapped — in particular listeners that
return `http.ErrServerClosed` are never treated as an error. -/
theorem c6_start_error_iff (env : StartEnv) :
    ((start env).retErr = none ↔
      firstFailingStep env = none ∧ firstFatalServe env.serveErrors = none) ∧
    (firstFailingStep env = none →
      (start env).served = true ∧
      (start env).retErr = (firstFatalServe env.serveErrors).map .serveAPI) := by
  unfold start firstFailingStep
  by_cases h1 : env.rootlessOk = false
  case pos =>
    simp only [if_pos h1]
    simp
  case neg =>
    simp only [if_neg h1]
    by_cases h2 : env.euidOk = false
    case pos =>
      simp only [if_neg h1, if_pos h2]
      simp
    case neg =>
      simp only [if_neg h2]
      by_cases h3 : env.umaskOk = false
      case pos =>
        simp only [if_neg h1, if_neg h2, if_pos h3]
        simp
      case neg =>
        simp only [if_neg h3]
        by_cases h4 : env.daemonRootOk = false
        case pos =>
          simp only [if_neg h1, if_neg h2, if_neg h3, if_pos h4]
          simp
        case neg =>
          simp only [if_neg h4]
          by_cases h5 : env.execRootOk = false
          case pos =>
            simp only [if_neg h1, if_neg h2, if_neg h3, if_neg h4, if_pos h5]
            simp
          case neg =>
            simp only [if_neg h5]
            by_cases h6 : env.pidfileSet = true ∧ env.pidfileOk = false
            case pos =>
              simp only [if_neg h1, if_neg h2, if_neg h3, if_neg h4, if_neg h5, if_pos h6]
              simp
            case neg =>
              simp only [if_neg h6]
              by_cases h7 : env.listenersOk = false
              case pos =>
                simp only [if_neg h1, if_neg h2, if_neg h3, if_neg h4, if_neg h5, if_neg h6, if_pos h7]
                simp
              case neg =>
                simp only [if_neg h7]
                by_cases h8 : env.containerdOk = false
                case pos =>
                  simp only [if_neg h1, if_neg h2, if_neg h3, if_neg h4, if_neg h5, if_neg h6, if_neg h7, if_pos h8]
                  simp
                case neg =>
                  simp only [if_neg h8]
                  by_cases h9 : env.preNotifyOk = false
                  case pos =>
                    simp only [if_neg h1, if_neg h2, if_neg h3, if_neg h4, if_neg h5, if_neg h6, if_neg h7, if_neg h8, if_pos h9]
                    simp
                  case neg =>
                    simp only [if_neg h9]
                    by_cases h10 : env.middlewaresOk = false
                    case pos =>
                      simp only [if_neg h1, if_neg h2, if_neg h3, if_neg h4, if_neg h5, if_neg h6, if_neg h7, if_neg h8, if_neg h9, if_pos h10]
                      simp
                    case neg =>
                      simp only [if_neg h10]
                      by_cases h11 : env.newDaemonOk = false
                      case pos =>
                        simp only [if_neg h1, if_neg h2, if_neg h3, if_neg h4, if_neg h5, if_neg h6, if_neg h7, if_neg h8, if_neg h9, if_neg h10, if_pos h11]
                        simp
                      case neg =>
                        simp only [if_neg h11]
                        by_cases h12 : env.validateAuthzOk = false
                        case pos =>
                          simp only [if_neg h1, if_neg h2, if_neg h3, if_neg h4, if_neg h5, if_neg h6, if_neg h7, if_neg h8, if_neg h9, if_neg h10, if_neg h11, if_pos h12]
                          simp
                        case neg =>
                          simp only [if_neg h12]
                          by_cases h13 : env.metricsOk = false
                          case pos =>
                            simp only [if_neg h1, if_neg h2, if_neg h3, if_neg h4, if_neg h5, if_neg h6, if_neg h7, if_neg h8, if_neg h9, if_neg h10, if_neg h11, if_neg h12, if_pos h13]
                            simp
                          case neg =>
                            simp only [if_neg h13]
                            by_cases h14 : env.clusterNewOk = false
                            case pos =>
                              simp only [if_neg h1, if_neg h2, if_neg h3, if_neg h4, if_neg h5, if_neg h6, if_neg h7, if_neg h8, if_neg h9, if_neg h10, if_neg h11, if_neg h12, if_neg h13, if_pos h14]
                              simp
                            case neg =>
                              simp only [if_neg h14]
                              by_cases h15 : env.clusterStartOk = false
                              case pos =>
                                simp only [if_neg h1, if_neg h2, if_neg h3, if_neg h4, if_neg h5, if_neg h6, if_neg h7, if_neg h8, if_neg h9, if_neg h10, if_neg h11, if_neg h12, if_neg h13, if_neg h14, if_pos h15]
                                simp
                              case neg =>
                                simp only [if_neg h15]
                                by_cases h16 : env.buildkitOk = false
                                case pos =>
                                  simp only [if_neg h1, if_neg h2, if_neg h3, if_neg h4, if_neg h5, if_neg h6, if_neg h7, if_neg h8, if_neg h9, if_neg h10, if_neg h11, if_neg h12, if_neg h13, if_neg h14, if_neg h15, if_pos h16]
                                  simp
                                case neg =>
                                  simp only [if_neg h1, if_neg h2, if_neg h3, if_neg h4, if_neg h5, if_neg h6, if_neg h7, if_neg h8, if_neg h9, if_neg h10, if_neg h11, if_neg h12, if_neg h13, if_neg h14, if_neg h15, if_neg h16]
                                  cases hf : firstFatalServe env.serveErrors <;> simp [hf]

/-- Environment for the C6 witness: startup succeeds; one listener
returns `ErrServerClosed`, a second fails fatally with error 9, a third
fails with error 4 and is dropped by the capacity-one channel. -/
def c6WitEnv : StartEnv where
  rootlessOk := true
  euidOk := true
  umaskOk := true
  daemonRootOk := true
  execRootOk := true
  pidfileSet := false
  pidfileOk := true
  listenersOk := true
  containerdOk := true
  managedContainerd := true
  preNotifyOk := true
  middlewaresOk := true
  newDaemonOk := true
  validateAuthzOk := true
  metricsOk := true
  clusterNewOk := true
  clusterStartOk := true
  buildkitOk := true
  stopFired := true
  serveErrors := [none, some 9, some 4]

/-- Witness for C6 at `c6WitEnv`. -/
theorem c6_start_error_iff_witness :
    ((start c6WitEnv).retErr = none ↔
      firstFailingStep c6WitEnv = none ∧
        firstFatalServe c6WitEnv.serveErrors = none) ∧
    (firstFailingStep c6WitEnv = none →
      (start c6WitEnv).served = true ∧
      (start c6WitEnv).retErr =
        (firstFatalServe c6WitEnv.serveErrors).map .serveAPI) :=
  c6_start_error_iff c6WitEnv

end Moby
